import Mathlib

/-!
Shallow embedding of the VideoForge processing core: the processing lock
(`ProcessingLock.acquireLock` and friends), the recovery service, the retry
policies, the narration-script selection of the audio phase, the create /
cancel route computations, and the processing orchestrator
(`ProcessingService.processVideo`).  Mongo documents are modelled as Lean
structures, the single-key lock collection as an `Option LockRow`, external
calls (LLM, video provider, ffmpeg, TTS) as an environment record of
outcomes, and thrown JS exceptions as `Except String`.  Timestamps are
naturals (milliseconds); `Date` fields that the claims never inspect are
booleans recording whether the source assigned them.
-/

namespace VideoForge

-- ==========================================
-- String helpers (kernel-computable versions of JS trim / toLowerCase /
-- includes, which the source uses for narration checks and retry
-- classification)
-- ==========================================

/-- Whitespace test used by the modelled `trim`. -/
def isWS (c : Char) : Bool := c = ' ' || c = '\t' || c = '\n' || c = '\r'

/-- Model of `String.prototype.trim`. -/
def strTrim (s : String) : String :=
  ⟨((s.data.dropWhile isWS).reverse.dropWhile isWS).reverse⟩

/-- ASCII lower-casing of one character. -/
def charLower (c : Char) : Char :=
  if 'A' ≤ c ∧ c ≤ 'Z' then Char.ofNat (c.toNat + 32) else c

/-- Model of `String.prototype.toLowerCase` (ASCII). -/
def strLower (s : String) : String := ⟨s.data.map charLower⟩

/-- Does `p` occur as a leading block of `cs`. -/
def prefixAt : List Char → List Char → Bool
  | [], _ => true
  | _ :: _, [] => false
  | p :: ps, c :: cs => p = c && prefixAt ps cs

/-- Does `pat` occur anywhere inside `s`. -/
def containsSub (s pat : List Char) : Bool :=
  match s with
  | [] => prefixAt pat []
  | _ :: rest => prefixAt pat s || containsSub rest pat

/-- Model of `String.prototype.includes`. -/
def strContains (s pat : String) : Bool := containsSub s.data pat.data

/-- JS `Math.round (num / den)` for non-negative arguments (ties round up). -/
def jsRound (num den : Nat) : Nat := (2 * num + den) / (2 * den)

/-- JS `Math.ceil (a / b)` on naturals. -/
def ceilDiv (a b : Nat) : Nat := (a + b - 1) / b

-- ==========================================
-- Data model (packages/backend/src/models)
-- ==========================================

/-- Video document `status` values. -/
inductive VStatus
  | pending
  | decomposing
  | generating
  | stitching
  | audio
  | merging
  | transcoding
  | completed
  | failed
deriving DecidableEq, Repr

/-- The string stored for each status (used when `updateProgress` receives
no message and falls back to the phase name). -/
def VStatus.name : VStatus → String
  | .pending => "pending"
  | .decomposing => "decomposing"
  | .generating => "generating"
  | .stitching => "stitching"
  | .audio => "audio"
  | .merging => "merging"
  | .transcoding => "transcoding"
  | .completed => "completed"
  | .failed => "failed"

/-- Segment `status` values. -/
inductive SegStatus
  | pending
  | generating
  | completed
  | failed
deriving DecidableEq, Repr

/-- A storyboard scene as stored on the video document. -/
structure Scene where
  sceneNumber : Nat := 1
  scenePrompt : String := ""
  visualDescription : String := ""
  continuityNotes : String := ""
  narrationText : Option String := none
  transitionType : String := "crossfade"
  startTime : Nat := 0
  endTime : Nat := 0
deriving DecidableEq, Repr

/-- A video segment sub-document.  `startedAt` / `completedAt` record only
whether the source assigned the timestamp. -/
structure Segment where
  segmentNumber : Nat
  status : SegStatus := .pending
  retryCount : Nat := 0
  filePath : Option String := none
  lastFramePath : Option String := none
  soraJobId : Option String := none
  error : Option String := none
  startedAt : Bool := false
  completedAt : Bool := false
deriving DecidableEq, Repr

/-- One entry of the `files` map on a video document. -/
structure FileEntry where
  path : String := ""
  url : String := ""
  size : Nat := 0
  format : String := ""
  duration : Option Nat := none
deriving DecidableEq, Repr

/-- The `files` map of a video document. -/
structure VideoFiles where
  stitched720p : Option FileEntry := none
  final720p : Option FileEntry := none
  final480p : Option FileEntry := none
  audioFile : Option FileEntry := none
  thumbnail : Option FileEntry := none
deriving DecidableEq, Repr

/-- Probed media metadata (`frameExtractionService.getVideoMetadata`). -/
structure MediaMetadata where
  duration : Nat := 0
  width : Nat := 0
  height : Nat := 0
  fps : Nat := 0
  codec : String := ""
deriving DecidableEq, Repr

/-- The mutable video document. -/
structure VideoDoc where
  id : String := ""
  userId : String := ""
  title : String := ""
  originalPrompt : String := ""
  enhancedPrompt : Option String := none
  targetDuration : Nat := 60
  segmentDuration : Nat := 12
  segmentCount : Nat := 0
  status : VStatus := .pending
  progress : Nat := 0
  currentPhase : String := ""
  currentSegment : Option Nat := none
  errorMessage : Option String := none
  scenes : List Scene := []
  segments : List Segment := []
  files : VideoFiles := {}
  actualDuration : Option Nat := none
  resolution : String := ""
  fps : Nat := 0
  codec : String := ""
  completedAt : Bool := false
deriving DecidableEq, Repr

-- ==========================================
-- Processing lock (models/processing-lock model file)
-- ==========================================

/-- Metadata stored with the processing lock. -/
structure LockMetadata where
  videoId : Option String := none
  userId : Option String := none
  targetDuration : Option Nat := none
  estimatedCompletion : Option Nat := none
deriving DecidableEq, Repr

/-- One row of the `processinglocks` collection.  The collection has a
unique index on `key`; all operations below act on the row for a single
key, so the store is an `Option LockRow`. -/
structure LockRow where
  key : String
  isLocked : Bool := false
  lockedBy : String
  lockedAt : Option Nat := none
  expiresAt : Option Nat := none
  metadata : LockMetadata := {}
deriving DecidableEq, Repr

/-- The filter of `acquireLock`'s `findOneAndUpdate`:
`\x7b key, $or: [ \x7b isLocked: false \x7d, \x7b expiresAt: \x7b $lt: now \x7d \x7d ] \x7d`.
A missing `expiresAt` does not match `$lt`. -/
def lockFilterMatches (row : LockRow) (now : Nat) : Bool :=
  !row.isLocked ||
    (match row.expiresAt with
     | some e => decide (e < now)
     | none => false)

/-- Model of `processingLockSchema.statics.acquireLock`.  Returns the
result handed back to the caller and the new state of the row.  When the
filter matches no document the upsert tries to insert a fresh row; if a row
with the key already exists the unique index raises `E11000`, which the
source catches and converts to `null`. -/
def acquireLock (db : Option LockRow) (key lockedBy : String)
    (metadata : LockMetadata) (timeoutMs now : Nat) :
    Option LockRow × Option LockRow :=
  let expiresAt := now + timeoutMs
  match db with
  | some row =>
    if lockFilterMatches row now then
      let updated : LockRow :=
        { row with
          isLocked := true
          lockedBy := lockedBy
          lockedAt := some now
          expiresAt := some expiresAt
          metadata := metadata }
      -- source re-checks `lock.lockedBy === lockedBy` before returning
      if updated.lockedBy = lockedBy then (some updated, some updated)
      else (none, some updated)
    else
      (none, some row)
  | none =>
    let created : LockRow :=
      { key := key
        isLocked := true
        lockedBy := lockedBy
        lockedAt := some now
        expiresAt := some expiresAt
        metadata := metadata }
    if created.lockedBy = lockedBy then (some created, some created)
    else (none, some created)

/-- Model of `processingLockSchema.statics.releaseLock`: unconditional
clear by key; `true` iff a row with the key existed. -/
def releaseLock (db : Option LockRow) : Bool × Option LockRow :=
  match db with
  | some row =>
    (true, some { row with isLocked := false, expiresAt := none, metadata := {} })
  | none => (false, none)

/-- The acquirability condition of the claim: the row is absent, unlocked,
or already expired. -/
def lockAcquirable (db : Option LockRow) (now : Nat) : Bool :=
  match db with
  | none => true
  | some row => lockFilterMatches row now

-- ==========================================
-- Recovery service (utils/recovery.ts)
-- ==========================================

/-- Result record returned by `recoverVideo`. -/
structure RecoveryResult where
  recovered : Bool
  message : String
  resumeFrom : Option Nat := none
deriving DecidableEq, Repr

/-- Disk facts the recovery service consults through `storageService`. -/
structure RecoveryEnv where
  existingSegmentPathCount : Nat := 0
  stitchedExists : Bool := false
deriving DecidableEq, Repr

/-- The loop of `recoverFromGeneration`: `resumeFrom = 1; for i: if
segments[i].status === completed then resumeFrom = i + 2 else break`. -/
def resumeFromGo : List Segment → Nat → Nat → Nat
  | [], _, acc => acc
  | s :: rest, i, acc =>
    if s.status = .completed then resumeFromGo rest (i + 1) (i + 2) else acc

/-- Resume point computed by `recoverFromGeneration`. -/
def resumeFromOf (segments : List Segment) : Nat := resumeFromGo segments 0 1

/-- Length of the largest prefix of the segments list whose status is
`completed` (the claim's description of the resume point). -/
def completedPrefixLen : List Segment → Nat
  | [] => 0
  | s :: rest =>
    if s.status = .completed then completedPrefixLen rest + 1 else 0

/-- Model of `RecoveryService.recoverFromGeneration`. -/
def recoverFromGeneration (v : VideoDoc) : RecoveryResult × VideoDoc :=
  let resumeFrom := resumeFromOf v.segments
  ({ recovered := true
     message := "Marked for resume from segment " ++ toString resumeFrom
     resumeFrom := some resumeFrom },
   { v with
     status := .pending
     currentSegment := some resumeFrom
     errorMessage := none })

/-- Model of `RecoveryService.recoverFromStitching`. -/
def recoverFromStitching (env : RecoveryEnv) (v : VideoDoc) :
    RecoveryResult × VideoDoc :=
  if env.existingSegmentPathCount = v.segmentCount then
    ({ recovered := true, message := "Ready to retry stitching" },
     { v with status := .pending, currentPhase := "stitching", errorMessage := none })
  else
    recoverFromGeneration v

/-- Model of `RecoveryService.recoverFromPostProcessing`. -/
def recoverFromPostProcessing (env : RecoveryEnv) (v : VideoDoc) :
    RecoveryResult × VideoDoc :=
  if env.stitchedExists then
    ({ recovered := true, message := "Ready to retry audio generation" },
     { v with status := .pending, currentPhase := "audio", errorMessage := none })
  else
    recoverFromStitching env v

/-- Model of `RecoveryService.recoverVideo` (video present in the store). -/
def recoverVideo (env : RecoveryEnv) (v : VideoDoc) :
    RecoveryResult × VideoDoc :=
  match v.status with
  | .generating => recoverFromGeneration v
  | .stitching => recoverFromStitching env v
  | .audio => recoverFromPostProcessing env v
  | .merging => recoverFromPostProcessing env v
  | .transcoding => recoverFromPostProcessing env v
  | _ => ({ recovered := false, message := "Video not in recoverable state" }, v)

-- ==========================================
-- Audio-phase script selection (ProcessingService.generateAudio)
-- ==========================================

/-- JS truthiness of `s.narrationText && s.narrationText.trim()`. -/
def sceneHasNarration (s : Scene) : Bool :=
  match s.narrationText with
  | some t => !(strTrim t = "")
  | none => false

/-- The source's `scenes.some(s => s.narrationText && s.narrationText.trim())`. -/
def hasUserNarration (scenes : List Scene) : Bool :=
  scenes.any sceneHasNarration

/-- `s.narrationText?.trim() || ''` for one scene. -/
def narrationTextOrEmpty (s : Scene) : String :=
  (s.narrationText.map strTrim).getD ""

/-- The user-provided script:
`scenes.map(...).filter(text => text.length > 0).join(' ')`. -/
def userNarrationScript (scenes : List Scene) : String :=
  String.intercalate " "
    ((scenes.map narrationTextOrEmpty).filter (fun t => t.length > 0))

/-- Script selection of `generateAudio`: the produced script together with
a flag recording whether `promptService.generateNarrationScript` (the
storyboard provider's narration writer) was called. -/
def narrationScript (scenes : List Scene) (llmScript : String) :
    String × Bool :=
  if hasUserNarration scenes then (userNarrationScript scenes, false)
  else (llmScript, true)

/-- Modelled from the spec: the claim's reading of the audio-phase rule —
use the joined narration texts iff every scene has non-empty
`narrationText`, otherwise call the narration writer. -/
def specNarrationScript (scenes : List Scene) (llmScript : String) :
    String × Bool :=
  if scenes.all (fun s => !(strTrim (s.narrationText.getD "") = "")) then
    (String.intercalate " " (scenes.map (fun s => s.narrationText.getD "")), false)
  else (llmScript, true)

-- ==========================================
-- Create route and scene decomposition (C9)
-- ==========================================

/-- `segmentDuration` chosen by `SceneDecompositionService.decomposePrompt`
and `generateFallbackScenes`: 5-second segments for 5-second videos,
otherwise `config.duration.segment` (env default 12). -/
def decomposeSegmentDuration (targetDuration configSegment : Nat) : Nat :=
  if targetDuration = 5 then 5 else configSegment

/-- `segmentCount` computed by the decomposition service. -/
def decomposeSegmentCount (targetDuration configSegment : Nat) : Nat :=
  ceilDiv targetDuration (decomposeSegmentDuration targetDuration configSegment)

/-- The `POST /create` handler's segment count:
`scenes?.length || Math.ceil(duration / 12)` (an empty scene list is falsy). -/
def createSegmentCount (duration : Nat) (scenes : Option (List Scene)) : Nat :=
  match scenes with
  | some ss => if ss.length ≠ 0 then ss.length else ceilDiv duration 12
  | none => ceilDiv duration 12

/-- The video document built by the `POST /create` handler.  The handler
hard-codes `const segmentDuration = 12`. -/
def createdVideo (userId : String) (duration : Nat)
    (scenes : Option (List Scene)) (title enhancedPrompt prompt : String) :
    VideoDoc :=
  { userId := userId
    title := title
    originalPrompt := prompt
    enhancedPrompt := some enhancedPrompt
    targetDuration := duration
    segmentDuration := 12
    segmentCount := createSegmentCount duration scenes
    status := .pending
    progress := 0
    scenes := scenes.getD [] }

/-- Model of `SceneDecompositionService.generateFallbackScenes`. -/
def generateFallbackScenes (prompt : String) (targetDuration configSegment : Nat) :
    List Scene × Nat :=
  let segmentDuration := decomposeSegmentDuration targetDuration configSegment
  let segmentCount := ceilDiv targetDuration segmentDuration
  ((List.range segmentCount).map (fun i =>
    { sceneNumber := i + 1
      scenePrompt :=
        prompt ++ " - Scene " ++ toString (i + 1) ++ " of " ++ toString segmentCount
      visualDescription := ""
      continuityNotes := if i > 0 then "Continue from previous scene" else ""
      startTime := i * segmentDuration
      endTime := (i + 1) * segmentDuration
      transitionType := "crossfade" }),
   segmentCount)

-- ==========================================
-- Cancellation (ProcessingService.cancelProcessing, cancel route)
-- ==========================================

/-- Model of `ProcessingService.cancelProcessing` for a video that exists:
terminal or pending statuses are refused; otherwise the video is marked
failed with the cancellation message and the processing lock released. -/
def cancelProcessing (v : VideoDoc) (lockDb : Option LockRow) :
    Bool × VideoDoc × Option LockRow :=
  if [VStatus.completed, VStatus.failed, VStatus.pending].contains v.status then
    (false, v, lockDb)
  else
    (true,
     { v with status := .failed, errorMessage := some "Processing cancelled by user" },
     (releaseLock lockDb).2)

/-- HTTP status returned by `POST /:id/cancel` once the video was found. -/
def cancelRoute (v : VideoDoc) (lockDb : Option LockRow) :
    Nat × VideoDoc × Option LockRow :=
  let r := cancelProcessing v lockDb
  if r.1 = false then (400, r.2.1, r.2.2) else (200, r.2.1, r.2.2)

-- ==========================================
-- Retry policy (utils/retry.ts)
-- ==========================================

/-- A thrown JS error as the retry classifier sees it. -/
structure ErrInfo where
  message : String := ""
  code : String := ""
deriving DecidableEq, Repr

/-- `RetryConfig` with the source's `DEFAULT_RETRY_CONFIG` as defaults. -/
structure RetryConfig where
  maxRetries : Nat := 3
  baseDelay : Nat := 2000
  maxDelay : Nat := 30000
  backoffMultiplier : Nat := 2
deriving DecidableEq, Repr

/-- Model of `RetryService.isRetryableError`. -/
def isRetryableError (e : ErrInfo) : Bool :=
  let message := strLower e.message
  let code := e.code
  if ["ECONNRESET", "ETIMEDOUT", "ENOTFOUND", "EAI_AGAIN"].contains code then true
  else if strContains message "rate limit" || strContains message "too many requests" then true
  else if strContains message "service unavailable" || strContains message "503" then true
  else if strContains message "timeout" then true
  else if strContains message "502" || strContains message "504" then true
  else false

/-- Side effects accumulated by `withRetry` when `videoId`/`segmentNumber`
are supplied: backoff sleeps, `$inc` updates of the segment's
`retryCount`, and the terminal `markSegmentFailed` message. -/
structure RetryTrace where
  sleeps : List Nat := []
  retryIncrements : Nat := 0
  markedFailed : Option String := none
deriving DecidableEq, Repr

/-- The delay computed inside `withRetry`:
`min(baseDelay * backoffMultiplier ^ (attempt - 1), maxDelay)`. -/
def backoffDelay (cfg : RetryConfig) (attempt : Nat) : Nat :=
  min (cfg.baseDelay * cfg.backoffMultiplier ^ (attempt - 1)) cfg.maxDelay

/-- The attempt loop of `RetryService.withRetry`; `fn a` is the outcome of
attempt `a`.  The `maxRetries < attempt` case is the source's unreachable
post-loop `throw lastError`. -/
def withRetryGo (cfg : RetryConfig) (fn : Nat → Except ErrInfo Unit)
    (attempt : Nat) (tr : RetryTrace) : Except ErrInfo Unit × RetryTrace :=
  if _h : cfg.maxRetries < attempt then
    (.error { message := "All retry attempts failed" }, tr)
  else
    match fn attempt with
    | .ok a => (.ok a, tr)
    | .error e =>
      if !isRetryableError e || attempt = cfg.maxRetries then
        (.error e, { tr with markedFailed := some e.message })
      else
        withRetryGo cfg fn (attempt + 1)
          { tr with
            sleeps := tr.sleeps ++ [backoffDelay cfg attempt]
            retryIncrements := tr.retryIncrements + 1 }
termination_by cfg.maxRetries + 1 - attempt
decreasing_by omega

/-- Model of `RetryService.withRetry` (with store ids supplied). -/
def withRetry (cfg : RetryConfig) (fn : Nat → Except ErrInfo Unit) :
    Except ErrInfo Unit × RetryTrace :=
  withRetryGo cfg fn 1 {}

-- ==========================================
-- Orchestrator (services/processing.service.ts)
-- ==========================================

/-- Outcome of one `generateAndSaveSegment` call for one attempt:
resolved completed, resolved with `status: failed`, or thrown. -/
inductive AttemptResult
  | completed (jobId : String)
  | failedResult (error : String)
  | thrown (error : String)
deriving DecidableEq, Repr

/-- Positional (`segments.$`) update: rewrite the first segment whose
`segmentNumber` matches. -/
def updateFirstSegment : List Segment → Nat → (Segment → Segment) → List Segment
  | [], _, _ => []
  | s :: rest, n, f =>
    if s.segmentNumber = n then f s :: rest else s :: updateFirstSegment rest n f

/-- Model of `ProcessingService.updateSegmentStatus`. -/
def updateSegmentStatus (v : VideoDoc) (segmentNumber : Nat)
    (f : Segment → Segment) : VideoDoc :=
  { v with segments := updateFirstSegment v.segments segmentNumber f }

/-- Model of `ProcessingService.updateProgress`. -/
def updateProgress (v : VideoDoc) (phase : VStatus) (progress : Nat)
    (message : Option String) (currentSegment : Option Nat) : VideoDoc :=
  let v :=
    { v with
      status := phase
      progress := progress
      currentPhase := message.getD phase.name }
  let v :=
    match currentSegment with
    | some n => { v with currentSegment := some n }
    | none => v
  if phase = .completed then { v with completedAt := true } else v

/-- External calls made during one orchestrator run and what each returns.
Sequential determinism per segment: `attempts n a` is the outcome of
attempt `a` on segment number `n`. -/
structure Env where
  llmScenes : Except String (List Scene) := .error "llm unavailable"
  attempts : Nat → Nat → AttemptResult := fun _ _ => .thrown "no provider"
  extractLastFrame : Nat → Except String String := fun _ => .error "no ffmpeg"
  existingSegmentPathCount : Nat := 0
  stitchResult : Except String Unit := .error "no ffmpeg"
  narrationLLM : Except String String := .error "llm unavailable"
  synthesizeResult : Except String Unit := .error "no tts"
  mergeResult : Except String Unit := .error "no ffmpeg"
  thumbnailResult : Except String Unit := .error "no ffmpeg"
  probeResult : Except String MediaMetadata := .error "no ffprobe"
  transcodeResult : Except String Unit := .error "no ffmpeg"

/-- Observable actions of a run, used to state which collaborators were
actually invoked. -/
inductive Event
  | providerStart (segmentNumber attempt : Nat)
  | stitchCalled
  | writeNarrationCalled
  | synthesizeCalled
  | mergeCalled
  | thumbnailCalled
  | transcodeCalled
deriving DecidableEq, Repr

/-- Is this event a provider `start` call for some segment attempt. -/
def Event.isProviderStart : Event → Bool
  | .providerStart _ _ => true
  | _ => false

/-- The orchestrator's working state: the persisted video document plus
the trace of external calls and backoff sleeps. -/
structure PState where
  video : VideoDoc
  events : List Event := []
  sleeps : List Nat := []
deriving DecidableEq, Repr

/-- Result record of `generateSegmentWithRetry`. -/
structure SegGenResult where
  status : SegStatus
  error : Option String := none
deriving DecidableEq, Repr

/-- `String(n).padStart(3, '0')`. -/
def pad3 (n : Nat) : String :=
  let s := toString n
  if s.length ≥ 3 then s else ⟨List.replicate (3 - s.length) '0'⟩ ++ s

/-- Model of `storageService.getSegmentPath` (upload root elided). -/
def getSegmentPath (userId videoId : String) (n : Nat) : String :=
  "videos/" ++ userId ++ "/" ++ videoId ++ "/segments/segment_" ++ pad3 n ++ ".mp4"

/-- The attempt loop of `ProcessingService.generateSegmentWithRetry`.  On
each attempt the segment row is set to `generating` with
`retryCount = attempt - 1`; a resolved failure retries after
`5000 * attempt` ms, a thrown failure before the last attempt likewise; a
thrown failure on the last attempt marks the segment failed.  Exhausting
the loop over resolved failures returns `Max retries exceeded` without a
further segment update.  The `jobId` callback persistence is folded into
the completion update; the continuity-frame argument only feeds the
provider call, which `attemptFn` abstracts. -/
def generateSegmentWithRetryGo (maxRetries : Nat)
    (attemptFn : Nat → AttemptResult) (segmentNumber : Nat)
    (outputPath : String) (attempt : Nat) (st : PState) :
    SegGenResult × PState :=
  if _h : maxRetries < attempt then
    ({ status := .failed, error := some "Max retries exceeded" }, st)
  else
    let st :=
      { st with video := updateSegmentStatus st.video segmentNumber (fun s =>
          { s with status := .generating, retryCount := attempt - 1, startedAt := true }) }
    let st := { st with events := st.events ++ [Event.providerStart segmentNumber attempt] }
    match attemptFn attempt with
    | .completed jobId =>
      let st :=
        { st with video := updateSegmentStatus st.video segmentNumber (fun s =>
            { s with status := .completed, filePath := some outputPath,
                     soraJobId := some jobId, completedAt := true }) }
      ({ status := .completed }, st)
    | .failedResult _err =>
      if h2 : attempt < maxRetries then
        generateSegmentWithRetryGo maxRetries attemptFn segmentNumber outputPath
          (attempt + 1) { st with sleeps := st.sleeps ++ [5000 * attempt] }
      else
        ({ status := .failed, error := some "Max retries exceeded" }, st)
    | .thrown err =>
      if h3 : attempt = maxRetries then
        let st :=
          { st with video := updateSegmentStatus st.video segmentNumber (fun s =>
              { s with status := .failed, error := some err }) }
        ({ status := .failed, error := some err }, st)
      else
        generateSegmentWithRetryGo maxRetries attemptFn segmentNumber outputPath
          (attempt + 1) { st with sleeps := st.sleeps ++ [5000 * attempt] }
termination_by maxRetries + 1 - attempt
decreasing_by
  all_goals omega

/-- Model of `ProcessingService.generateSegmentWithRetry`. -/
def generateSegmentWithRetry (maxRetries : Nat)
    (attemptFn : Nat → AttemptResult) (segmentNumber : Nat)
    (outputPath : String) (st : PState) : SegGenResult × PState :=
  generateSegmentWithRetryGo maxRetries attemptFn segmentNumber outputPath 1 st

/-- The result of the attempt loop as a pure function of the attempt
outcomes (independent of the threaded state). -/
def segOutcomeGo (maxRetries : Nat) (attemptFn : Nat → AttemptResult)
    (attempt : Nat) : SegGenResult :=
  if _h : maxRetries < attempt then
    { status := .failed, error := some "Max retries exceeded" }
  else
    match attemptFn attempt with
    | .completed _ => { status := .completed }
    | .failedResult _ =>
      if h2 : attempt < maxRetries then segOutcomeGo maxRetries attemptFn (attempt + 1)
      else { status := .failed, error := some "Max retries exceeded" }
    | .thrown err =>
      if h3 : attempt = maxRetries then { status := .failed, error := some err }
      else segOutcomeGo maxRetries attemptFn (attempt + 1)
termination_by maxRetries + 1 - attempt
decreasing_by
  all_goals omega

/-- Outcome of running the full attempt loop on one segment. -/
def segOutcome (maxRetries : Nat) (attemptFn : Nat → AttemptResult) :
    SegGenResult :=
  segOutcomeGo maxRetries attemptFn 1

/-- The error thrown by `generateAllSegments` when a segment stays failed. -/
def segFailMsg (segmentNumber maxRetries : Nat) : String :=
  "Segment " ++ toString segmentNumber ++ " failed after " ++
    toString maxRetries ++ " retries"

/-- `Math.round(5 + 65 * ((i + 0.5) / n))` over the naturals. -/
def segmentProgress (i n : Nat) : Nat :=
  jsRound (10 * n + 130 * i + 65) (2 * n)

/-- One iteration of the `generateAllSegments` loop at scene index `i`.
`userId` and `videoId` are the loop arguments of `generateAllSegments`,
computed once by `processVideo`. -/
def genStep (env : Env) (maxRetries : Nat) (userId videoId : String)
    (scenes : List Scene) (i : Nat)
    (st : PState) : Except String Unit × PState :=
  match scenes.get? i with
  | none => (.ok (), st)
  | some _scene =>
    let segmentNumber := i + 1
    let st :=
      { st with video :=
          (updateProgress st.video .generating (segmentProgress i scenes.length)
            (some ("Generating segment " ++ toString segmentNumber ++ " of " ++
              toString scenes.length))
            (some segmentNumber)) }
    let r := generateSegmentWithRetry maxRetries (env.attempts segmentNumber)
      segmentNumber (getSegmentPath userId videoId segmentNumber) st
    let st := r.2
    if r.1.status = .failed then
      (.error (segFailMsg segmentNumber maxRetries), st)
    else if i < scenes.length - 1 then
      match env.extractLastFrame segmentNumber with
      | .error e => (.error e, st)
      | .ok framePath =>
        (.ok (),
         { st with video := updateSegmentStatus st.video segmentNumber (fun s =>
             { s with lastFramePath := some framePath }) })
    else (.ok (), st)

/-- Sequencing of the orchestrator's phases: an error aborts the chain but
keeps the state written so far (the JS `catch` still sees the persisted
document). -/
def bindE (r : Except String Unit × PState)
    (f : PState → Except String Unit × PState) :
    Except String Unit × PState :=
  match r with
  | (.ok _, st) => f st
  | (.error e, st) => (.error e, st)

/-- The `generateAllSegments` loop from scene index `i` on. -/
def genLoop (env : Env) (maxRetries : Nat) (userId videoId : String)
    (scenes : List Scene)
    (i : Nat) (st : PState) : Except String Unit × PState :=
  if h : i < scenes.length then
    bindE (genStep env maxRetries userId videoId scenes i st)
      (fun st' => genLoop env maxRetries userId videoId scenes (i + 1) st')
  else (.ok (), st)
termination_by scenes.length - i
decreasing_by omega

/-- Model of `ProcessingService.generateAllSegments`. -/
def generateAllSegments (env : Env) (maxRetries : Nat) (userId videoId : String)
    (scenes : List Scene)
    (st : PState) : Except String Unit × PState :=
  genLoop env maxRetries userId videoId scenes 0 st

/-- Model of `ProcessingService.stitchSegments`. -/
def stitchSegments (env : Env) (st : PState) : Except String Unit × PState :=
  if env.existingSegmentPathCount = 0 then
    (.error "No segments found to stitch", st)
  else
    let st := { st with events := st.events ++ [Event.stitchCalled] }
    match env.stitchResult with
    | .error e => (.error e, st)
    | .ok _ =>
      let fe : FileEntry := { path := "stitched_720p.mp4", format := "mp4" }
      let files := { st.video.files with stitched720p := some fe }
      (.ok (), { st with video := { st.video with files := files } })

/-- Model of `ProcessingService.generateAudio`: script selection per
`narrationScript`, then TTS synthesis and the `files.audio` update. -/
def generateAudio (env : Env) (scenes : List Scene) (st : PState) :
    Except String Unit × PState :=
  let scriptStep : Except String String × PState :=
    if hasUserNarration scenes then (.ok (userNarrationScript scenes), st)
    else
      let st := { st with events := st.events ++ [Event.writeNarrationCalled] }
      match env.narrationLLM with
      | .error e => (.error e, st)
      | .ok script => (.ok script, st)
  match scriptStep with
  | (.error e, st) => (.error e, st)
  | (.ok _script, st) =>
    let st := { st with events := st.events ++ [Event.synthesizeCalled] }
    match env.synthesizeResult with
    | .error e => (.error e, st)
    | .ok _ =>
      let fe : FileEntry := { path := "audio.mp3", format := "mp3" }
      let files := { st.video.files with audioFile := some fe }
      (.ok (), { st with video := { st.video with files := files } })

/-- Model of `ProcessingService.mergeAudioVideo`: merge, thumbnail, probe,
then the `files.final_720p` / `files.thumbnail` / metadata update. -/
def mergeAudioVideo (env : Env) (st : PState) : Except String Unit × PState :=
  let st := { st with events := st.events ++ [Event.mergeCalled] }
  match env.mergeResult with
  | .error e => (.error e, st)
  | .ok _ =>
    let st := { st with events := st.events ++ [Event.thumbnailCalled] }
    match env.thumbnailResult with
    | .error e => (.error e, st)
    | .ok _ =>
      match env.probeResult with
      | .error e => (.error e, st)
      | .ok md =>
        let feV : FileEntry :=
          { path := "final_720p.mp4", format := "mp4", duration := some md.duration }
        let feT : FileEntry := { path := "thumbnail.jpg", format := "jpg" }
        let files := { st.video.files with final720p := some feV, thumbnail := some feT }
        let v :=
          { st.video with
            files := files
            actualDuration := some md.duration
            resolution := toString md.width ++ "x" ++ toString md.height
            fps := md.fps
            codec := md.codec }
        (.ok (), { st with video := v })

/-- Model of `ProcessingService.transcodeResolutions`. -/
def transcodeResolutions (env : Env) (st : PState) :
    Except String Unit × PState :=
  let st := { st with events := st.events ++ [Event.transcodeCalled] }
  match env.transcodeResult with
  | .error e => (.error e, st)
  | .ok _ =>
    let fe : FileEntry := { path := "final_480p.mp4", format := "mp4" }
    let files := { st.video.files with final480p := some fe }
    (.ok (), { st with video := { st.video with files := files } })

/-- Tail of the run from phase 6 on: transcoding and completion. -/
def transcodePhaseFrom (env : Env) (st : PState) :
    Except String Unit × PState :=
  let st := { st with video :=
    (updateProgress st.video .merging 95 (some "Audio merged") none) }
  let st := { st with video :=
    (updateProgress st.video .transcoding 95
      (some "Creating additional resolutions") none) }
  bindE (transcodeResolutions env st) (fun st =>
  (.ok (),
   { st with video :=
       (updateProgress st.video .completed 100
         (some "Video processing complete") none) }))

/-- Tail of the run from phase 5 on: merge, then the rest. -/
def mergePhaseFrom (env : Env) (st : PState) :
    Except String Unit × PState :=
  let st := { st with video :=
    (updateProgress st.video .audio 90 (some "Audio generated") none) }
  let st := { st with video :=
    (updateProgress st.video .merging 90 (some "Merging audio and video") none) }
  bindE (mergeAudioVideo env st) (fun st => transcodePhaseFrom env st)

/-- Tail of the run from phase 4 on: audio, then the rest. -/
def audioPhaseFrom (env : Env) (scenes : List Scene) (st : PState) :
    Except String Unit × PState :=
  let st := { st with video :=
    (updateProgress st.video .stitching 80 (some "Video stitched") none) }
  let st := { st with video :=
    (updateProgress st.video .audio 80 (some "Generating narration") none) }
  bindE (generateAudio env scenes st) (fun st => mergePhaseFrom env st)

/-- Phases 3 to 6 plus completion, exactly as sequenced in `processVideo`
after `generateAllSegments` returns. -/
def postGeneration (env : Env) (scenes : List Scene) (st : PState) :
    Except String Unit × PState :=
  let st := { st with video :=
    (updateProgress st.video .generating 70 (some "All segments generated") none) }
  let st := { st with video :=
    (updateProgress st.video .stitching 70 (some "Stitching video segments") none) }
  bindE (stitchSegments env st) (fun st => audioPhaseFrom env scenes st)

/-- The run from scene index `i` of the generation loop to the end:
remaining segments, then all later phases.  This is the orchestrator's
whole continuation at a between-segments boundary. -/
def continueFromSegment (env : Env) (maxRetries : Nat)
    (userId videoId : String) (scenes : List Scene)
    (i : Nat) (st : PState) : Except String Unit × PState :=
  bindE (genLoop env maxRetries userId videoId scenes i st)
    (fun st => postGeneration env scenes st)

/-- Model of `ProcessingService.decomposeScenes` (the LLM path updates the
document with the decomposition result; the catch path uses
`generateFallbackScenes`). -/
def decomposeScenes (env : Env) (v : VideoDoc) : List Scene × VideoDoc :=
  match env.llmScenes with
  | .ok scenes =>
    let segmentCount := decomposeSegmentCount v.targetDuration 12
    (scenes, { v with scenes := scenes, segmentCount := segmentCount })
  | .error _ =>
    let r := generateFallbackScenes (v.enhancedPrompt.getD v.originalPrompt)
      v.targetDuration 12
    (r.1, { v with scenes := r.1, segmentCount := r.2 })

/-- The scene list the run works with: the document's scenes when the
caller supplied them, otherwise the decomposition result. -/
def scenesUsed (env : Env) (v : VideoDoc) : List Scene :=
  if v.scenes.length = 0 then (decomposeScenes env v).1 else v.scenes

/-- State after phase 1 (scene decomposition or the custom-scenes skip)
and its progress writes. -/
def afterPhase1 (env : Env) (st : PState) : PState :=
  if st.video.scenes.length = 0 then
    let st := { st with video :=
      (updateProgress st.video .decomposing 0
        (some "Decomposing prompt into scenes") none) }
    let r := decomposeScenes env st.video
    { st with video :=
      (updateProgress r.2 .decomposing 5 (some "Scenes decomposed") none) }
  else
    { st with video :=
      (updateProgress st.video .decomposing 5 (some "Using custom scenes") none) }

/-- The phase chain of `processVideo` inside the `try` block: phase 1,
then the generation loop and all later phases. -/
def runPhases (env : Env) (maxRetries : Nat) (st : PState) :
    Except String Unit × PState :=
  let userId := st.video.userId
  let videoId := st.video.id
  let scenes := scenesUsed env st.video
  let st := afterPhase1 env st
  let st := { st with video :=
    (updateProgress st.video .generating 5 (some "Starting segment generation") none) }
  continueFromSegment env maxRetries userId videoId scenes 0 st

/-- Default `LOCK_TIMEOUT_MS` (30 minutes). -/
def lockTimeoutMs : Nat := 30 * 60 * 1000

/-- Model of `ProcessingService.handleProcessingError`. -/
def handleProcessingError (v : VideoDoc) (e : String) : VideoDoc :=
  { v with status := .failed, errorMessage := some e }

/-- Model of `ProcessingService.processVideo` for a video present in the
store: acquire the processing lock (throw busy on contention), run the
phases, on a thrown error mark the video failed and rethrow, and in the
`finally` release the lock unconditionally. -/
def processVideo (env : Env) (maxRetries : Nat) (v : VideoDoc)
    (lockDb : Option LockRow) (now : Nat) :
    Except String Unit × PState × Option LockRow :=
  let md : LockMetadata :=
    { videoId := some v.id
      userId := some v.userId
      targetDuration := some v.targetDuration
      estimatedCompletion := some (now + v.targetDuration * 60 * 1000) }
  let r := acquireLock lockDb "video_processing_lock" ("processing-" ++ v.id)
    md lockTimeoutMs now
  match r.1 with
  | none => (.error "System is busy processing another video", { video := v }, r.2)
  | some _ =>
    let pr := runPhases env maxRetries { video := v }
    let st :=
      match pr.1 with
      | .ok _ => pr.2
      | .error e => { pr.2 with video := handleProcessingError pr.2.video e }
    (pr.1, st, (releaseLock r.2).2)

-- ==========================================
-- Concrete fixtures used by the claim checks
-- ==========================================

/-- Concrete check of C1: an expired lock held by another owner is taken
over, with all fields rewritten. -/
def c1db : Option LockRow :=
  some { key := "video_processing_lock", isLocked := true,
         lockedBy := "processing-a", lockedAt := some 0, expiresAt := some 5000 }

/-- Concrete check of C5 on a run with two completed segments of three. -/
def c5video : VideoDoc :=
  { id := "v5", status := .generating, segmentCount := 3,
    segments := [{ segmentNumber := 1, status := .completed },
                 { segmentNumber := 2, status := .completed },
                 { segmentNumber := 3 }] }

/-- C6 as stated is false: the first recovery moves the video to `pending`
and returns `recovered = true`, while an immediately repeated call lands in
the non-recoverable default branch and returns `recovered = false` — a
different decision. -/
def c6video : VideoDoc :=
  { id := "v6", status := .generating, segmentCount := 2,
    segments := [{ segmentNumber := 1, status := .completed },
                 { segmentNumber := 2 }] }

/-- C8 as stated is false: with one scene carrying narration text and one
without, the claim demands the narration writer be called, but the source
uses `some(...)` rather than `every(...)` and joins the non-empty texts. -/
def c8scenes : List Scene :=
  [{ sceneNumber := 1, narrationText := some "A majestic eagle soars" },
   { sceneNumber := 2, narrationText := none }]

/-- Concrete check of C10: a queued-but-unstarted video cannot be
cancelled. -/
def c10video : VideoDoc := { id := "v10", status := .pending }

/-- C7 as stated is false for the orchestrator's segment pipeline: after a
retryable failure of attempt 1 the wait is `5000 * attempt = 5000` ms, not
`min(2000 * 2 ^ 0, 30000) = 2000` ms; and the completed segment ends with
the `$set` value `retryCount = attempt - 1`. -/
def c7atts : Nat → AttemptResult := fun a =>
  if a = 1 then .thrown "connection timeout while polling" else .completed "job-2"

def c7st : PState := { video := { id := "v7", segments := [{ segmentNumber := 3 }] } }

def c7fn : Nat → Except ErrInfo Unit := fun a =>
  if a = 1 then .error { message := "Service Unavailable (503)" } else .ok ()

/-- Fixture for the C2 check: every provider attempt on every segment
throws, so segment 1 fails after all three attempts. -/
def c2env : Env := { attempts := fun _ _ => .thrown "provider exploded" }

def c2video : VideoDoc :=
  { id := "v2", userId := "u2",
    scenes := [{ sceneNumber := 1 }, { sceneNumber := 2 }],
    segments := [{ segmentNumber := 1 }, { segmentNumber := 2 }] }

/-- The same orchestrator state with the stored `errorMessage` replaced —
the only footprint a cancellation request leaves that the continuation does
not overwrite. -/
def withErr (st : PState) (m : Option String) : PState :=
  { st with video := { st.video with errorMessage := m } }

def c3activeSt : PState := { video := { id := "v3w", status := .generating } }

/-- Fixtures for the C3 counterexample: a two-scene run in which every
external call succeeds, cancelled at the boundary between segment 1 and
segment 2. -/
def c3scenes : List Scene :=
  [{ sceneNumber := 1, scenePrompt := "s1", narrationText := some "one",
     startTime := 0, endTime := 12 },
   { sceneNumber := 2, scenePrompt := "s2", narrationText := some "two",
     startTime := 12, endTime := 24 }]

def c3env : Env :=
  { llmScenes := .error "unused"
    attempts := fun _ _ => .completed "job"
    extractLastFrame := fun n => .ok ("frame-" ++ toString n)
    existingSegmentPathCount := 2
    stitchResult := .ok ()
    narrationLLM := .ok "unused"
    synthesizeResult := .ok ()
    mergeResult := .ok ()
    thumbnailResult := .ok ()
    probeResult := .ok { duration := 24, width := 1280, height := 720,
                         fps := 30, codec := "h264" }
    transcodeResult := .ok () }

def c3video : VideoDoc :=
  { id := "v3", userId := "u3", targetDuration := 24, segmentCount := 2,
    status := .pending, scenes := c3scenes,
    segments := [{ segmentNumber := 1 }, { segmentNumber := 2 }] }

def c3st0 : PState := { video := c3video }

def c3stStart : PState :=
  { afterPhase1 c3env c3st0 with video :=
      (updateProgress (afterPhase1 c3env c3st0).video .generating 5
        (some "Starting segment generation") none) }

def c3step : Except String Unit × PState :=
  genStep c3env 3 "u3" "v3" c3scenes 0 c3stStart

def c3mid : PState := c3step.2

def c3lock : Option LockRow :=
  some { key := "video_processing_lock", isLocked := true,
         lockedBy := "processing-v3", lockedAt := some 0,
         expiresAt := some 1800000 }

def c3cancelled : Bool × VideoDoc × Option LockRow :=
  cancelProcessing c3mid.video c3lock

def c3resumed : Except String Unit × PState :=
  continueFromSegment c3env 3 "u3" "v3" c3scenes 1
    { c3mid with video := c3cancelled.2.1 }

-- ==========================================
-- Helper lemmas
-- ==========================================

theorem resumeFromGo_eq (segs : List Segment) :
    ∀ i : Nat, resumeFromGo segs i (i + 1) = i + completedPrefixLen segs + 1 := by
  induction segs with
  | nil => intro i; simp [resumeFromGo, completedPrefixLen]
  | cons s rest ih =>
    intro i
    by_cases h : s.status = SegStatus.completed
    · have h2 := ih (i + 1)
      have h3 : i + 1 + 1 = i + 2 := rfl
      rw [h3] at h2
      simp only [resumeFromGo, completedPrefixLen, h, if_pos]
      omega
    · simp [resumeFromGo, completedPrefixLen, h]

theorem resumeFromOf_eq (segs : List Segment) :
    resumeFromOf segs = completedPrefixLen segs + 1 := by
  simpa [resumeFromOf] using resumeFromGo_eq segs 0

theorem hasUserNarration_iff (scenes : List Scene) :
    hasUserNarration scenes = true ↔
      ∃ s ∈ scenes, ∃ t, s.narrationText = some t ∧ strTrim t ≠ "" := by
  simp only [hasUserNarration, List.any_eq_true]
  constructor
  · rintro ⟨s, hs, hn⟩
    refine ⟨s, hs, ?_⟩
    cases hnt : s.narrationText with
    | none => simp [sceneHasNarration, hnt] at hn
    | some t =>
      refine ⟨t, rfl, ?_⟩
      simpa [sceneHasNarration, hnt] using hn
  · rintro ⟨s, hs, t, hnt, ht⟩
    exact ⟨s, hs, by simp [sceneHasNarration, hnt, ht]⟩

-- ==========================================
-- Claim theorems
-- ==========================================

/-- C1: `ProcessingLock.acquireLock` acquires atomically exactly when the
row is absent, unlocked or expired — setting `isLocked`, `lockedBy`,
`lockedAt = now` and `expiresAt = now + timeoutMs` — and otherwise returns
`null` leaving the row unchanged. -/
theorem c1_acquireLock_conditional_upsert (db : Option LockRow)
    (key owner : String) (md : LockMetadata) (timeoutMs now : Nat) :
    (lockAcquirable db now = true →
      ∃ r : LockRow,
        acquireLock db key owner md timeoutMs now = (some r, some r) ∧
        r.isLocked = true ∧ r.lockedBy = owner ∧ r.lockedAt = some now ∧
        r.expiresAt = some (now + timeoutMs)) ∧
    (lockAcquirable db now = false →
      acquireLock db key owner md timeoutMs now = (none, db)) := by
  constructor
  · intro hA
    cases db with
    | none =>
      refine ⟨{ key := key, isLocked := true, lockedBy := owner, lockedAt := some now, expiresAt := some (now + timeoutMs), metadata := md }, ?_, rfl, rfl, rfl, rfl⟩
      simp [acquireLock]
    | some row =>
      have hf : lockFilterMatches row now = true := hA
      refine ⟨{ row with isLocked := true, lockedBy := owner, lockedAt := some now, expiresAt := some (now + timeoutMs), metadata := md }, ?_, rfl, rfl, rfl, rfl⟩
      simp [acquireLock, hf]
  · intro hA
    cases db with
    | none => simp [lockAcquirable] at hA
    | some row =>
      have hf : lockFilterMatches row now = false := hA
      simp [acquireLock, hf]

theorem c1_acquireLock_conditional_upsert_witness :
    lockAcquirable c1db 10000 = true ∧
    (∃ r : LockRow,
      acquireLock c1db "video_processing_lock" "processing-b" {} 1800000 10000 =
        (some r, some r) ∧
      r.isLocked = true ∧ r.lockedBy = "processing-b" ∧ r.lockedAt = some 10000 ∧
      r.expiresAt = some (10000 + 1800000)) :=
  ⟨by decide,
   (c1_acquireLock_conditional_upsert c1db "video_processing_lock"
     "processing-b" {} 1800000 10000).1 (by decide)⟩

/-- C5: recovery of a video whose status is `generating` marks it
`pending`, sets `currentSegment` to the length of the largest completed
prefix plus one, clears the error, and leaves segments and scenes
untouched. -/
theorem c5_recover_generating (env : RecoveryEnv) (v : VideoDoc)
    (h : v.status = .generating) :
    (recoverVideo env v).1.recovered = true ∧
    (recoverVideo env v).1.resumeFrom = some (completedPrefixLen v.segments + 1) ∧
    (recoverVideo env v).2.status = .pending ∧
    (recoverVideo env v).2.currentSegment = some (completedPrefixLen v.segments + 1) ∧
    (recoverVideo env v).2.errorMessage = none ∧
    (recoverVideo env v).2.segments = v.segments ∧
    (recoverVideo env v).2.scenes = v.scenes := by
  simp [recoverVideo, h, recoverFromGeneration, resumeFromOf_eq]

theorem c5_recover_generating_witness :
    c5video.status = .generating ∧
    ((recoverVideo {} c5video).1.recovered = true ∧
     (recoverVideo {} c5video).1.resumeFrom = some (completedPrefixLen c5video.segments + 1) ∧
     (recoverVideo {} c5video).2.status = .pending ∧
     (recoverVideo {} c5video).2.currentSegment = some (completedPrefixLen c5video.segments + 1) ∧
     (recoverVideo {} c5video).2.errorMessage = none ∧
     (recoverVideo {} c5video).2.segments = c5video.segments ∧
     (recoverVideo {} c5video).2.scenes = c5video.scenes) :=
  ⟨rfl, c5_recover_generating {} c5video rfl⟩

theorem c6_counterexample :
    (recoverVideo {} c6video).1.recovered = true ∧
    (recoverVideo {} ((recoverVideo {} c6video).2)).1.recovered = false ∧
    (recoverVideo {} ((recoverVideo {} c6video).2)).1 ≠ (recoverVideo {} c6video).1 := by
  decide

/-- Either a call to `recoverVideo` recovers and leaves the video
`pending`, or it declines and returns the video untouched. -/
theorem recoverVideo_cases (env : RecoveryEnv) (v : VideoDoc) :
    ((recoverVideo env v).1.recovered = true ∧
     (recoverVideo env v).2.status = .pending) ∨
    recoverVideo env v =
      ({ recovered := false, message := "Video not in recoverable state" }, v) := by
  cases hs : v.status
  case generating =>
    left; simp [recoverVideo, hs, recoverFromGeneration]
  case stitching =>
    left
    by_cases hc : env.existingSegmentPathCount = v.segmentCount <;>
      simp [recoverVideo, hs, recoverFromStitching, hc, recoverFromGeneration]
  case audio =>
    left
    by_cases hst : env.stitchedExists = true
    · simp [recoverVideo, hs, recoverFromPostProcessing, hst]
    · by_cases hc : env.existingSegmentPathCount = v.segmentCount <;>
        simp [recoverVideo, hs, recoverFromPostProcessing, hst,
          recoverFromStitching, hc, recoverFromGeneration]
  case merging =>
    left
    by_cases hst : env.stitchedExists = true
    · simp [recoverVideo, hs, recoverFromPostProcessing, hst]
    · by_cases hc : env.existingSegmentPathCount = v.segmentCount <;>
        simp [recoverVideo, hs, recoverFromPostProcessing, hst,
          recoverFromStitching, hc, recoverFromGeneration]
  case transcoding =>
    left
    by_cases hst : env.stitchedExists = true
    · simp [recoverVideo, hs, recoverFromPostProcessing, hst]
    · by_cases hc : env.existingSegmentPathCount = v.segmentCount <;>
        simp [recoverVideo, hs, recoverFromPostProcessing, hst,
          recoverFromStitching, hc, recoverFromGeneration]
  case pending => right; simp [recoverVideo, hs]
  case decomposing => right; simp [recoverVideo, hs]
  case completed => right; simp [recoverVideo, hs]
  case failed => right; simp [recoverVideo, hs]

/-- C6 amended: recovery twice is idempotent on the stored video, but not
on the returned decision.  When the first call recovers, the second call
leaves the video exactly as the first left it and reports
`recovered = false` (`Video not in recoverable state`); when the first call
does not recover, the second call returns the identical result. -/
theorem c6_recovery_idempotent_on_state (env : RecoveryEnv) (v : VideoDoc) :
    ((recoverVideo env v).1.recovered = true →
      recoverVideo env ((recoverVideo env v).2) =
        ({ recovered := false, message := "Video not in recoverable state" },
         (recoverVideo env v).2)) ∧
    ((recoverVideo env v).1.recovered = false →
      recoverVideo env ((recoverVideo env v).2) = recoverVideo env v) := by
  have hpendCase : ∀ w : VideoDoc, w.status = .pending →
      recoverVideo env w =
        ({ recovered := false, message := "Video not in recoverable state" }, w) := by
    intro w hw
    simp [recoverVideo, hw]
  constructor
  · intro h
    rcases recoverVideo_cases env v with ⟨_, hpend⟩ | hdef
    · exact hpendCase _ hpend
    · rw [hdef] at h
      simp at h
  · intro h
    rcases recoverVideo_cases env v with ⟨htrue, _⟩ | hdef
    · rw [htrue] at h
      cases h
    · rw [hdef]
      exact hdef

theorem c6_recovery_idempotent_on_state_witness :
    (recoverVideo {} c6video).1.recovered = true ∧
    recoverVideo {} ((recoverVideo {} c6video).2) =
      ({ recovered := false, message := "Video not in recoverable state" },
       (recoverVideo {} c6video).2) :=
  ⟨by decide, (c6_recovery_idempotent_on_state {} c6video).1 (by decide)⟩

theorem c8_counterexample :
    narrationScript c8scenes "LLM SCRIPT" ≠ specNarrationScript c8scenes "LLM SCRIPT" ∧
    narrationScript c8scenes "LLM SCRIPT" = ("A majestic eagle soars", false) ∧
    specNarrationScript c8scenes "LLM SCRIPT" = ("LLM SCRIPT", true) := by
  decide

/-- C8 amended: if at least one scene has narration text that is non-empty
after trimming, the script is the space-join of the trimmed non-empty
narration texts and the narration writer is not called; only when no scene
has such text is the narration writer's output used. -/
theorem c8_narration_script_selection (scenes : List Scene) (llm : String) :
    ((∃ s ∈ scenes, ∃ t, s.narrationText = some t ∧ strTrim t ≠ "") →
      narrationScript scenes llm = (userNarrationScript scenes, false)) ∧
    ((∀ s ∈ scenes, ∀ t, s.narrationText = some t → strTrim t = "") →
      narrationScript scenes llm = (llm, true)) := by
  constructor
  · intro h
    have hu : hasUserNarration scenes = true := (hasUserNarration_iff scenes).2 h
    simp [narrationScript, hu]
  · intro h
    cases hu : hasUserNarration scenes with
    | false => simp [narrationScript, hu]
    | true =>
      exfalso
      obtain ⟨s, hs, t, hnt, ht⟩ := (hasUserNarration_iff scenes).1 hu
      exact ht (h s hs t hnt)

theorem c8_narration_script_selection_witness :
    (∃ s ∈ c8scenes, ∃ t, s.narrationText = some t ∧ strTrim t ≠ "") ∧
    narrationScript c8scenes "LLM SCRIPT" = (userNarrationScript c8scenes, false) :=
  ⟨⟨{ sceneNumber := 1, narrationText := some "A majestic eagle soars" },
    by decide, "A majestic eagle soars", rfl, by decide⟩,
   (c8_narration_script_selection c8scenes "LLM SCRIPT").1
     ⟨{ sceneNumber := 1, narrationText := some "A majestic eagle soars" },
      by decide, "A majestic eagle soars", rfl, by decide⟩⟩

/-- C9 as stated is false: the create route stores `segmentDuration = 12`
even for a 5-second video. -/
theorem c9_counterexample :
    (createdVideo "u1" 5 none "Title" "enhanced" "eagle").segmentDuration ≠ 5 ∧
    (createdVideo "u1" 5 none "Title" "enhanced" "eagle").segmentDuration = 12 := by
  decide

/-- C9 amended: the create route always stores `segmentDuration = 12` and
`segmentCount = scenes.length` for non-empty supplied scenes, else
`ceil(duration / 12)`; the 5-second special case lives in the
decomposition service, whose `segmentDuration` is 5 iff the target is 5
(else 12), so a 5-second video decomposes into one 5-second scene and a
120-second video into ten 12-second scenes. -/
theorem c9_segment_sizing (u t e p : String) (d : Nat) (ss : List Scene)
    (hss : ss ≠ []) :
    ((createdVideo u d none t e p).segmentDuration = 12 ∧
     (createdVideo u d (some ss) t e p).segmentDuration = 12) ∧
    (createdVideo u d none t e p).segmentCount = ceilDiv d 12 ∧
    (createdVideo u d (some ss) t e p).segmentCount = ss.length ∧
    (decomposeSegmentDuration 5 12 = 5 ∧ decomposeSegmentCount 5 12 = 1) ∧
    (decomposeSegmentDuration 120 12 = 12 ∧ decomposeSegmentCount 120 12 = 10) ∧
    ((generateFallbackScenes p 5 12).2 = 1 ∧ (generateFallbackScenes p 120 12).2 = 10) ∧
    ((generateFallbackScenes p 5 12).1.map (fun sc => sc.endTime - sc.startTime) = [5]) ∧
    (createdVideo u 5 none t e p).segmentCount = 1 ∧
    (createdVideo u 120 none t e p).segmentCount = 10 := by
  refine ⟨⟨rfl, rfl⟩, rfl, ?_, ⟨rfl, rfl⟩, ⟨rfl, rfl⟩, ⟨rfl, rfl⟩, ?_, rfl, rfl⟩
  · have : ss.length ≠ 0 := by
      intro h0
      exact hss (List.length_eq_zero.1 h0)
    simp [createdVideo, createSegmentCount, this]
  · simp [generateFallbackScenes, decomposeSegmentDuration, ceilDiv, List.range_succ]

theorem c9_segment_sizing_witness :
    ([({} : Scene)] ≠ []) ∧
    (createdVideo "u" 7 (some [{}]) "t" "e" "p").segmentCount = 1 :=
  ⟨by decide,
   (c9_segment_sizing "u" "t" "e" "p" 7 [{}] (by decide)).2.2.1⟩

/-- C10: `cancelProcessing` refuses a `pending` video exactly as it
refuses the terminal `completed` / `failed` ones — it returns `false`
without touching the video or the lock, and the cancel route then answers
400. -/
theorem c10_cancel_refused_for_pending (v : VideoDoc) (lockDb : Option LockRow)
    (h : v.status = .pending ∨ v.status = .completed ∨ v.status = .failed) :
    cancelProcessing v lockDb = (false, v, lockDb) ∧
    cancelRoute v lockDb = (400, v, lockDb) := by
  rcases h with h | h | h <;> simp [cancelProcessing, cancelRoute, h]

theorem c10_cancel_refused_for_pending_witness :
    c10video.status = .pending ∧
    (cancelProcessing c10video none = (false, c10video, none) ∧
     cancelRoute c10video none = (400, c10video, none)) :=
  ⟨rfl, c10_cancel_refused_for_pending c10video none (Or.inl rfl)⟩

theorem c7_counterexample :
    (generateSegmentWithRetry 3 c7atts 3 "out.mp4" c7st).2.sleeps = [5000] ∧
    backoffDelay {} 1 = 2000 ∧ (5000 : Nat) ≠ 2000 ∧
    isRetryableError { message := "connection timeout while polling" } = true ∧
    (generateSegmentWithRetry 3 c7atts 3 "out.mp4" c7st).2.video.segments.map
      (fun s => s.retryCount) = [1] := by
  refine ⟨?_, by decide, by decide, by decide, ?_⟩ <;>
    simp [generateSegmentWithRetry, generateSegmentWithRetryGo, c7atts, c7st,
      updateSegmentStatus, updateFirstSegment]

/-- C7 amended: the exponential schedule
`min(baseDelay * multiplier ^ (attempt - 1), maxDelay)` with defaults
(2 s, x2, 30 s) and a `$inc` of the per-segment `retryCount` per retryable
failure belongs to `RetryService.withRetry`; the orchestrator's
`generateSegmentWithRetry` (the path the video pipeline actually takes)
instead waits `5000 * attempt` ms and persists `retryCount = attempt - 1`
at the start of each attempt, both with at most 3 attempts. -/
theorem c7_backoff_schedules (fn : Nat → Except ErrInfo Unit)
    (gen : Nat → AttemptResult) (k : Nat) (jobId : String) (n : Nat)
    (path : String) (st : PState) (hk1 : 1 ≤ k) (hk3 : k ≤ 3)
    (hfail : ∀ a, 1 ≤ a → a < k → ∃ e, fn a = .error e ∧ isRetryableError e = true)
    (hok : fn k = .ok ())
    (hgfail : ∀ a, 1 ≤ a → a < k → ∃ m, gen a = .thrown m)
    (hgok : gen k = .completed jobId) :
    ((withRetry {} fn).1 = .ok () ∧
     (withRetry {} fn).2.sleeps =
       (List.range (k - 1)).map (fun i => min (2000 * 2 ^ i) 30000) ∧
     (withRetry {} fn).2.sleeps =
       (List.range (k - 1)).map (fun i => backoffDelay {} (i + 1)) ∧
     (withRetry {} fn).2.retryIncrements = k - 1) ∧
    ((generateSegmentWithRetry 3 gen n path st).1.status = .completed ∧
     (generateSegmentWithRetry 3 gen n path st).2.sleeps =
       st.sleeps ++ (List.range (k - 1)).map (fun i => 5000 * (i + 1))) ∧
    (generateSegmentWithRetry 3 gen n path
        { video := { segments := [{ segmentNumber := n }] } }).2.video.segments =
      [{ segmentNumber := n, status := .completed, retryCount := k - 1,
         filePath := some path, soraJobId := some jobId,
         startedAt := true, completedAt := true }] := by
  interval_cases k
  · -- immediate success
    simp [withRetry, withRetryGo, hok, generateSegmentWithRetry,
      generateSegmentWithRetryGo, hgok, updateSegmentStatus, updateFirstSegment]
  · -- one retryable failure, then success
    obtain ⟨e1, he1, hr1⟩ := hfail 1 (by norm_num) (by norm_num)
    obtain ⟨m1, hm1⟩ := hgfail 1 (by norm_num) (by norm_num)
    simp [withRetry, withRetryGo, he1, hr1, hok, backoffDelay,
      generateSegmentWithRetry, generateSegmentWithRetryGo, hm1, hgok,
      updateSegmentStatus, updateFirstSegment, List.range_succ]
  · -- two retryable failures, then success
    obtain ⟨e1, he1, hr1⟩ := hfail 1 (by norm_num) (by norm_num)
    obtain ⟨e2, he2, hr2⟩ := hfail 2 (by norm_num) (by norm_num)
    obtain ⟨m1, hm1⟩ := hgfail 1 (by norm_num) (by norm_num)
    obtain ⟨m2, hm2⟩ := hgfail 2 (by norm_num) (by norm_num)
    simp [withRetry, withRetryGo, he1, hr1, he2, hr2, hok, backoffDelay,
      generateSegmentWithRetry, generateSegmentWithRetryGo, hm1, hm2, hgok,
      updateSegmentStatus, updateFirstSegment, List.range_succ]

theorem c7_backoff_schedules_witness :
    (withRetry {} c7fn).2.sleeps = [2000] ∧
    (generateSegmentWithRetry 3 c7atts 3 "out.mp4" c7st).2.sleeps = [5000] := by
  have h := c7_backoff_schedules c7fn c7atts 2 "job-2" 3 "out.mp4" c7st
    (by norm_num) (by norm_num)
    (by
      intro a h1 h2
      have ha : a = 1 := by omega
      subst ha
      exact ⟨{ message := "Service Unavailable (503)" }, rfl, by decide⟩)
    rfl
    (by
      intro a h1 h2
      have ha : a = 1 := by omega
      subst ha
      exact ⟨"connection timeout while polling", rfl⟩)
    rfl
  refine ⟨?_, ?_⟩
  · rw [h.1.2.1]
    decide
  · rw [h.2.1.2]
    decide

-- ==========================================
-- Orchestrator lemmas
-- ==========================================

theorem segRetryGo_fst_fuel (m : Nat) (f : Nat → AttemptResult) (n : Nat)
    (p : String) :
    ∀ fuel a st, m + 1 - a ≤ fuel →
      (generateSegmentWithRetryGo m f n p a st).1 = segOutcomeGo m f a := by
  intro fuel
  induction fuel with
  | zero =>
    intro a st hle
    have hma : m < a := by omega
    simp [generateSegmentWithRetryGo, segOutcomeGo, hma]
  | succ fuel ih =>
    intro a st hle
    by_cases hma : m < a
    · simp [generateSegmentWithRetryGo, segOutcomeGo, hma]
    · cases hfa : f a with
      | completed j =>
        simp [generateSegmentWithRetryGo, segOutcomeGo, hma, hfa]
      | failedResult e =>
        by_cases ham : a < m
        · have hrec := fun st => ih (a + 1) st (by omega)
          rw [generateSegmentWithRetryGo.eq_def, segOutcomeGo.eq_def]
          simp [hma, hfa, ham, hrec]
        · simp [generateSegmentWithRetryGo, segOutcomeGo, hma, hfa, ham]
      | thrown e =>
        by_cases hem : a = m
        · subst hem
          simp [generateSegmentWithRetryGo, segOutcomeGo, hma, hfa]
        · have hrec := fun st => ih (a + 1) st (by omega)
          rw [generateSegmentWithRetryGo.eq_def, segOutcomeGo.eq_def]
          simp [hma, hfa, hem, hrec]

/-- The result record of the segment-retry loop does not depend on the
threaded orchestrator state. -/
theorem segRetry_fst (m : Nat) (f : Nat → AttemptResult) (n : Nat)
    (p : String) (st : PState) :
    (generateSegmentWithRetry m f n p st).1 = segOutcome m f :=
  segRetryGo_fst_fuel m f n p (m + 1 - 1) 1 st (by omega)

theorem segRetryGo_state_fuel (m : Nat) (f : Nat → AttemptResult) (n : Nat)
    (p : String) :
    ∀ fuel a st, m + 1 - a ≤ fuel →
      (generateSegmentWithRetryGo m f n p a st).2.video.files = st.video.files ∧
      ∃ evs, (generateSegmentWithRetryGo m f n p a st).2.events = st.events ++ evs ∧
        ∀ e ∈ evs, e.isProviderStart = true := by
  intro fuel
  induction fuel with
  | zero =>
    intro a st hle
    have hma : m < a := by omega
    simp [generateSegmentWithRetryGo, hma]
  | succ fuel ih =>
    intro a st hle
    by_cases hma : m < a
    · simp [generateSegmentWithRetryGo, hma]
    · cases hfa : f a with
      | completed j =>
        refine ⟨?_, [Event.providerStart n a], ?_, ?_⟩ <;>
          simp [generateSegmentWithRetryGo, hma, hfa, updateSegmentStatus,
            Event.isProviderStart]
      | failedResult e =>
        by_cases ham : a < m
        · obtain ⟨hfiles, evs, hev, hall⟩ := ih (a + 1)
            { st with
              video := updateSegmentStatus st.video n (fun s =>
                { s with status := .generating, retryCount := a - 1, startedAt := true })
              events := st.events ++ [Event.providerStart n a]
              sleeps := (st.sleeps ++ [5000 * a]) } (by omega)
          constructor
          · rw [generateSegmentWithRetryGo.eq_def]
            simp only [hma, hfa, ham, dif_neg, dif_pos, if_pos, if_neg]
            simpa [updateSegmentStatus] using hfiles
          · refine ⟨Event.providerStart n a :: evs, ?_, ?_⟩
            · rw [generateSegmentWithRetryGo.eq_def]
              simp only [hma, hfa, ham, dif_neg, dif_pos, if_pos, if_neg]
              simpa [List.append_assoc] using hev
            · intro e he
              rcases List.mem_cons.1 he with rfl | he2
              · rfl
              · exact hall e he2
        · refine ⟨?_, [Event.providerStart n a], ?_, ?_⟩ <;>
            simp [generateSegmentWithRetryGo, hma, hfa, ham, updateSegmentStatus,
              Event.isProviderStart]
      | thrown e =>
        by_cases hem : a = m
        · subst hem
          refine ⟨?_, [Event.providerStart n a], ?_, ?_⟩ <;>
            simp [generateSegmentWithRetryGo, hma, hfa, updateSegmentStatus,
              Event.isProviderStart]
        · obtain ⟨hfiles, evs, hev, hall⟩ := ih (a + 1)
            { st with
              video := updateSegmentStatus st.video n (fun s =>
                { s with status := .generating, retryCount := a - 1, startedAt := true })
              events := st.events ++ [Event.providerStart n a]
              sleeps := (st.sleeps ++ [5000 * a]) } (by omega)
          constructor
          · rw [generateSegmentWithRetryGo.eq_def]
            simp only [hma, hfa, hem, dif_neg, dif_pos, if_pos, if_neg]
            simpa [updateSegmentStatus] using hfiles
          · refine ⟨Event.providerStart n a :: evs, ?_, ?_⟩
            · rw [generateSegmentWithRetryGo.eq_def]
              simp only [hma, hfa, hem, dif_neg, dif_pos, if_pos, if_neg]
              simpa [List.append_assoc] using hev
            · intro e he
              rcases List.mem_cons.1 he with rfl | he2
              · rfl
              · exact hall e he2

/-- State effects of the segment-retry loop: files untouched, only
provider-start events appended. -/
theorem segRetry_state (m : Nat) (f : Nat → AttemptResult) (n : Nat)
    (p : String) (st : PState) :
    (generateSegmentWithRetry m f n p st).2.video.files = st.video.files ∧
    ∃ evs, (generateSegmentWithRetry m f n p st).2.events = st.events ++ evs ∧
      ∀ e ∈ evs, e.isProviderStart = true :=
  segRetryGo_state_fuel m f n p (m + 1 - 1) 1 st (by omega)

theorem genStep_ok (env : Env) (mr : Nat) (uid vid : String)
    (scenes : List Scene) (i : Nat)
    (st : PState) (hi : i < scenes.length)
    (hcomp : (segOutcome mr (env.attempts (i + 1))).status = .completed)
    (hframe : i < scenes.length - 1 → ∃ fp, env.extractLastFrame (i + 1) = .ok fp) :
    ∃ st', genStep env mr uid vid scenes i st = (.ok (), st') ∧
      st'.video.files = st.video.files ∧
      ∃ evs, st'.events = st.events ++ evs ∧ ∀ e ∈ evs, e.isProviderStart = true := by
  obtain ⟨sc, hsc⟩ : ∃ sc, scenes.get? i = some sc := by
    cases h' : scenes.get? i with
    | none =>
      have := List.get?_eq_none.mp h'
      omega
    | some sc => exact ⟨sc, rfl⟩
  have hstate := segRetryGo_state_fuel mr (env.attempts (i + 1)) (i + 1)
    (getSegmentPath uid vid (i + 1)) (mr + 1 - 1) 1
    { st with video :=
        (updateProgress st.video .generating (segmentProgress i scenes.length)
          (some ("Generating segment " ++ toString (i + 1) ++ " of " ++
            toString scenes.length))
          (some (i + 1))) } (by omega)
  have hcomp2 : (segOutcomeGo mr (env.attempts (i + 1)) 1).status = .completed := hcomp
  by_cases hlast : i < scenes.length - 1
  · obtain ⟨fp, hfp⟩ := hframe hlast
    simp only [genStep, hsc, generateSegmentWithRetry]
    rw [segRetryGo_fst_fuel mr (env.attempts (i + 1)) (i + 1) _ (mr + 1 - 1) 1 _ (by omega)]
    rw [hcomp2]
    rw [if_neg (by decide : ¬(SegStatus.completed = SegStatus.failed))]
    rw [if_pos hlast, hfp]
    refine ⟨_, rfl, ?_, ?_⟩
    · exact hstate.1
    · exact hstate.2
  · simp only [genStep, hsc, generateSegmentWithRetry]
    rw [segRetryGo_fst_fuel mr (env.attempts (i + 1)) (i + 1) _ (mr + 1 - 1) 1 _ (by omega)]
    rw [hcomp2]
    rw [if_neg (by decide : ¬(SegStatus.completed = SegStatus.failed))]
    rw [if_neg hlast]
    refine ⟨_, rfl, ?_, ?_⟩
    · exact hstate.1
    · exact hstate.2

theorem genStep_fail (env : Env) (mr : Nat) (uid vid : String)
    (scenes : List Scene) (k : Nat)
    (st : PState) (hk : k < scenes.length)
    (hfail : (segOutcome mr (env.attempts (k + 1))).status = .failed) :
    ∃ st', genStep env mr uid vid scenes k st = (.error (segFailMsg (k + 1) mr), st') ∧
      st'.video.files = st.video.files ∧
      ∃ evs, st'.events = st.events ++ evs ∧ ∀ e ∈ evs, e.isProviderStart = true := by
  obtain ⟨sc, hsc⟩ : ∃ sc, scenes.get? k = some sc := by
    cases h' : scenes.get? k with
    | none =>
      have := List.get?_eq_none.mp h'
      omega
    | some sc => exact ⟨sc, rfl⟩
  have hstate := segRetryGo_state_fuel mr (env.attempts (k + 1)) (k + 1)
    (getSegmentPath uid vid (k + 1)) (mr + 1 - 1) 1
    { st with video :=
        (updateProgress st.video .generating (segmentProgress k scenes.length)
          (some ("Generating segment " ++ toString (k + 1) ++ " of " ++
            toString scenes.length))
          (some (k + 1))) } (by omega)
  have hfail2 : (segOutcomeGo mr (env.attempts (k + 1)) 1).status = .failed := hfail
  simp only [genStep, hsc, generateSegmentWithRetry]
  rw [segRetryGo_fst_fuel mr (env.attempts (k + 1)) (k + 1) _ (mr + 1 - 1) 1 _ (by omega)]
  rw [hfail2]
  rw [if_pos rfl]
  refine ⟨_, rfl, ?_, ?_⟩
  · exact hstate.1
  · exact hstate.2

theorem genLoop_fails (env : Env) (mr : Nat) (uid vid : String)
    (scenes : List Scene) (k : Nat)
    (hk : k < scenes.length)
    (hfail : (segOutcome mr (env.attempts (k + 1))).status = .failed)
    (hpre : ∀ j, j < k → (segOutcome mr (env.attempts (j + 1))).status = .completed)
    (hframe : ∀ j, j < k → ∃ fp, env.extractLastFrame (j + 1) = .ok fp) :
    ∀ fuel i st, k - i ≤ fuel → i ≤ k →
      ∃ st', genLoop env mr uid vid scenes i st =
        (.error (segFailMsg (k + 1) mr), st') ∧
        st'.video.files = st.video.files ∧
        ∃ evs, st'.events = st.events ++ evs ∧ ∀ e ∈ evs, e.isProviderStart = true := by
  intro fuel
  induction fuel with
  | zero =>
    intro i st h0 hik
    have hik2 : i = k := by omega
    subst hik2
    obtain ⟨st', hstep, hfiles, evs, hev, hall⟩ :=
      genStep_fail env mr uid vid scenes i st hk hfail
    refine ⟨st', ?_, hfiles, evs, hev, hall⟩
    rw [genLoop.eq_def, dif_pos hk, hstep]
    rfl
  | succ fuel ih =>
    intro i st hfu hik
    by_cases hik2 : i = k
    · subst hik2
      obtain ⟨st', hstep, hfiles, evs, hev, hall⟩ :=
        genStep_fail env mr uid vid scenes i st hk hfail
      refine ⟨st', ?_, hfiles, evs, hev, hall⟩
      rw [genLoop.eq_def, dif_pos hk, hstep]
      rfl
    · have hi : i < scenes.length := by omega
      obtain ⟨st1, hstep, hfiles1, evs1, hev1, hall1⟩ :=
        genStep_ok env mr uid vid scenes i st hi (hpre i (by omega))
          (fun _ => hframe i (by omega))
      obtain ⟨st2, hloop, hfiles2, evs2, hev2, hall2⟩ :=
        ih (i + 1) st1 (by omega) (by omega)
      refine ⟨st2, ?_, ?_, evs1 ++ evs2, ?_, ?_⟩
      · rw [genLoop.eq_def, dif_pos hi, hstep]
        simpa [bindE] using hloop
      · rw [hfiles2, hfiles1]
      · rw [hev2, hev1, List.append_assoc]
      · intro e he
        rcases List.mem_append.1 he with h1 | h2
        · exact hall1 e h1
        · exact hall2 e h2

/-- Phase 1 never touches the `files` map or the `events` trace. -/
theorem afterPhase1_files (env : Env) (st : PState) :
    (afterPhase1 env st).video.files = st.video.files ∧
    (afterPhase1 env st).events = st.events := by
  by_cases h : st.video.scenes.length = 0 <;>
    cases hd : env.llmScenes <;>
      simp [afterPhase1, h, decomposeScenes, hd, updateProgress]

/-- C4: whenever `processVideo` acquires the processing lock, the lock row
is unlocked again when the call returns — on the success path and on every
thrown-error path alike, via the unconditional release in `finally`. -/
theorem c4_lock_released_on_every_exit (env : Env) (mr : Nat) (v : VideoDoc)
    (lockDb : Option LockRow) (now : Nat)
    (h : lockAcquirable lockDb now = true) :
    ∃ row : LockRow, (processVideo env mr v lockDb now).2.2 = some row ∧
      row.isLocked = false := by
  cases lockDb with
  | none =>
    simp [processVideo, acquireLock, releaseLock]
  | some row =>
    have hf : lockFilterMatches row now = true := h
    simp [processVideo, acquireLock, hf, releaseLock]

/-- C2: when some segment of the run still fails after all retry
attempts (and every earlier segment succeeded, so the run actually reaches
it), `processVideo` throws `Segment k failed after 3 retries`; the video
ends `failed` with that message, the stitcher is never invoked, and no
final 720p/480p artifact is recorded. -/
theorem c2_segment_failure_fails_run (env : Env) (v : VideoDoc)
    (lockDb : Option LockRow) (now k : Nat)
    (hlock : lockAcquirable lockDb now = true)
    (hk : k < (scenesUsed env v).length)
    (hfail : (segOutcome 3 (env.attempts (k + 1))).status = .failed)
    (hpre : ∀ j, j < k → (segOutcome 3 (env.attempts (j + 1))).status = .completed)
    (hframe : ∀ j, j < k → ∃ fp, env.extractLastFrame (j + 1) = .ok fp)
    (h720 : v.files.final720p = none) (h480 : v.files.final480p = none) :
    (processVideo env 3 v lockDb now).1 = .error (segFailMsg (k + 1) 3) ∧
    (processVideo env 3 v lockDb now).2.1.video.status = .failed ∧
    (processVideo env 3 v lockDb now).2.1.video.errorMessage =
      some (segFailMsg (k + 1) 3) ∧
    Event.stitchCalled ∉ (processVideo env 3 v lockDb now).2.1.events ∧
    (processVideo env 3 v lockDb now).2.1.video.files.final720p = none ∧
    (processVideo env 3 v lockDb now).2.1.video.files.final480p = none := by
  obtain ⟨stE, hloop, hfilesE, evs, hev, hall⟩ :=
    genLoop_fails env 3 v.userId v.id (scenesUsed env v) k hk hfail hpre hframe k 0
      { afterPhase1 env { video := v } with video :=
          (updateProgress (afterPhase1 env { video := v }).video .generating 5
            (some "Starting segment generation") none) }
      (by omega) (by omega)
  have hfilesC :
      ({ afterPhase1 env { video := v } with video :=
          (updateProgress (afterPhase1 env { video := v }).video .generating 5
            (some "Starting segment generation") none) } : PState).video.files =
        v.files :=
    (afterPhase1_files env { video := v }).1
  have hevC :
      ({ afterPhase1 env { video := v } with video :=
          (updateProgress (afterPhase1 env { video := v }).video .generating 5
            (some "Starting segment generation") none) } : PState).events =
        ([] : List Event) :=
    (afterPhase1_files env { video := v }).2
  have hrun : runPhases env 3 { video := v } =
      (.error (segFailMsg (k + 1) 3), stE) := by
    simp only [runPhases, continueFromSegment]
    rw [hloop]
    rfl
  have hfilesFinal : stE.video.files = v.files := by
    rw [hfilesE, hfilesC]
  have hevFinal : stE.events = evs := by
    rw [hev, hevC]
    rfl
  have hnostitch : Event.stitchCalled ∉ stE.events := by
    rw [hevFinal]
    intro hmem
    have := hall _ hmem
    simp [Event.isProviderStart] at this
  have hmain : processVideo env 3 v lockDb now =
      (.error (segFailMsg (k + 1) 3),
       { stE with video := handleProcessingError stE.video (segFailMsg (k + 1) 3) },
       (releaseLock (acquireLock lockDb "video_processing_lock"
          ("processing-" ++ v.id)
          { videoId := some v.id, userId := some v.userId,
            targetDuration := some v.targetDuration,
            estimatedCompletion := some (now + v.targetDuration * 60 * 1000) }
          lockTimeoutMs now).2).2) := by
    cases lockDb with
    | none =>
      simp only [processVideo, acquireLock, eq_self_iff_true, if_true]
      rw [hrun]
    | some row =>
      have hf : lockFilterMatches row now = true := hlock
      simp only [processVideo, acquireLock, hf, eq_self_iff_true, if_true]
      rw [hrun]
  rw [hmain]
  refine ⟨rfl, rfl, rfl, ?_, ?_, ?_⟩
  · exact hnostitch
  · show stE.video.files.final720p = none
    rw [hfilesFinal, h720]
  · show stE.video.files.final480p = none
    rw [hfilesFinal, h480]

theorem c4_lock_released_on_every_exit_witness :
    lockAcquirable none 0 = true ∧
    ∃ row : LockRow, (processVideo {} 3 {} none 0).2.2 = some row ∧
      row.isLocked = false :=
  ⟨rfl, c4_lock_released_on_every_exit {} 3 {} none 0 rfl⟩

theorem c2_segment_failure_fails_run_witness :
    (segOutcome 3 (c2env.attempts 1)).status = .failed ∧
    ((processVideo c2env 3 c2video none 0).1 = .error (segFailMsg 1 3) ∧
     (processVideo c2env 3 c2video none 0).2.1.video.status = .failed ∧
     (processVideo c2env 3 c2video none 0).2.1.video.errorMessage =
       some (segFailMsg 1 3) ∧
     Event.stitchCalled ∉ (processVideo c2env 3 c2video none 0).2.1.events ∧
     (processVideo c2env 3 c2video none 0).2.1.video.files.final720p = none ∧
     (processVideo c2env 3 c2video none 0).2.1.video.files.final480p = none) := by
  have hfail : (segOutcome 3 (c2env.attempts 1)).status = .failed := by
    simp [c2env, segOutcome, segOutcomeGo]
  exact ⟨hfail,
    c2_segment_failure_fails_run c2env c2video none 0 0 rfl (by decide) hfail
      (fun j hj => absurd hj (Nat.not_lt_zero j))
      (fun j hj => absurd hj (Nat.not_lt_zero j)) rfl rfl⟩

-- ==========================================
-- Cancellation invariance (the orchestrator never reads the cancel state)
-- ==========================================

theorem updateProgress_errComm (v : VideoDoc) (m : Option String)
    (ph : VStatus) (p : Nat) (msg : Option String) (cs : Option Nat) :
    updateProgress { v with errorMessage := m } ph p msg cs =
      { updateProgress v ph p msg cs with errorMessage := m } := by
  cases cs <;> by_cases hph : ph = .completed <;> simp [updateProgress, hph]

theorem updateProgress_statusIrrel (v : VideoDoc) (s : VStatus)
    (ph : VStatus) (p : Nat) (msg : Option String) (cs : Option Nat) :
    updateProgress { v with status := s } ph p msg cs =
      updateProgress v ph p msg cs := rfl

theorem transcodePhaseFrom_errComm (env : Env) (st : PState) (m : Option String) :
    transcodePhaseFrom env (withErr st m) =
      ((transcodePhaseFrom env st).1, withErr (transcodePhaseFrom env st).2 m) := by
  cases h : env.transcodeResult <;>
    simp [transcodePhaseFrom, transcodeResolutions, bindE, withErr, updateProgress, h]

theorem mergePhaseFrom_errComm (env : Env) (st : PState) (m : Option String) :
    mergePhaseFrom env (withErr st m) =
      ((mergePhaseFrom env st).1, withErr (mergePhaseFrom env st).2 m) := by
  cases h6 : env.mergeResult <;> cases h7 : env.thumbnailResult <;>
    cases h8 : env.probeResult <;> cases h9 : env.transcodeResult <;>
      simp [mergePhaseFrom, mergeAudioVideo, transcodePhaseFrom,
        transcodeResolutions, bindE, withErr, updateProgress, h6, h7, h8, h9]

theorem withErr_video (st : PState) (m : Option String) :
    (withErr st m).video = { st.video with errorMessage := m } := rfl

theorem withErr_events (st : PState) (m : Option String) :
    (withErr st m).events = st.events := rfl

theorem withErr_sleeps (st : PState) (m : Option String) :
    (withErr st m).sleeps = st.sleeps := rfl

theorem withErr_fold (v : VideoDoc) (m : Option String) (E : List Event)
    (S : List Nat) :
    ({ video := { v with errorMessage := m }, events := E, sleeps := S } : PState) =
      withErr { video := v, events := E, sleeps := S } m := rfl

theorem updateSegmentStatus_errComm (v : VideoDoc) (m : Option String)
    (n : Nat) (g : Segment → Segment) :
    updateSegmentStatus { v with errorMessage := m } n g =
      { updateSegmentStatus v n g with errorMessage := m } := rfl

theorem bindE_errComm (r : Except String Unit × PState) (m : Option String)
    (g g0 : PState → Except String Unit × PState)
    (hg : ∀ st, g (withErr st m) = ((g0 st).1, withErr (g0 st).2 m)) :
    bindE (r.1, withErr r.2 m) g = ((bindE r g0).1, withErr (bindE r g0).2 m) := by
  obtain ⟨e, st⟩ := r
  cases e <;> simp [bindE, hg]

theorem generateAudio_errComm (env : Env) (scenes : List Scene) (st : PState)
    (m : Option String) :
    generateAudio env scenes (withErr st m) =
      ((generateAudio env scenes st).1, withErr (generateAudio env scenes st).2 m) := by
  by_cases h3 : hasUserNarration scenes <;> cases h4 : env.narrationLLM <;>
    cases h5 : env.synthesizeResult <;>
      simp [generateAudio, withErr, h3, h4, h5]

theorem stitchSegments_errComm (env : Env) (st : PState) (m : Option String) :
    stitchSegments env (withErr st m) =
      ((stitchSegments env st).1, withErr (stitchSegments env st).2 m) := by
  by_cases h1 : env.existingSegmentPathCount = 0 <;> cases h2 : env.stitchResult <;>
    simp [stitchSegments, withErr, h1, h2]

theorem audioPhaseFrom_errComm (env : Env) (scenes : List Scene) (st : PState)
    (m : Option String) :
    audioPhaseFrom env scenes (withErr st m) =
      ((audioPhaseFrom env scenes st).1, withErr (audioPhaseFrom env scenes st).2 m) := by
  simp only [audioPhaseFrom, withErr_video, withErr_events, withErr_sleeps]
  rw [updateProgress_errComm st.video m VStatus.stitching 80
      (some "Video stitched") none,
    updateProgress_errComm
      (updateProgress st.video VStatus.stitching 80 (some "Video stitched") none)
      m VStatus.audio 80 (some "Generating narration") none,
    withErr_fold, generateAudio_errComm,
    bindE_errComm _ m _ _ (fun st => mergePhaseFrom_errComm env st m)]

theorem postGeneration_errComm (env : Env) (scenes : List Scene) (st : PState)
    (m : Option String) :
    postGeneration env scenes (withErr st m) =
      ((postGeneration env scenes st).1, withErr (postGeneration env scenes st).2 m) := by
  simp only [postGeneration, withErr_video, withErr_events, withErr_sleeps]
  rw [updateProgress_errComm st.video m VStatus.generating 70
      (some "All segments generated") none,
    updateProgress_errComm
      (updateProgress st.video VStatus.generating 70
        (some "All segments generated") none)
      m VStatus.stitching 70 (some "Stitching video segments") none,
    withErr_fold, stitchSegments_errComm,
    bindE_errComm _ m _ _ (fun st => audioPhaseFrom_errComm env scenes st m)]

theorem segRetryGo_errComm_fuel (M : Nat) (f : Nat → AttemptResult) (n : Nat)
    (p : String) :
    ∀ fuel a st m, M + 1 - a ≤ fuel →
      generateSegmentWithRetryGo M f n p a (withErr st m) =
        ((generateSegmentWithRetryGo M f n p a st).1,
         withErr (generateSegmentWithRetryGo M f n p a st).2 m) := by
  intro fuel
  induction fuel with
  | zero =>
    intro a st m hle
    have hma : M < a := by omega
    simp [generateSegmentWithRetryGo, hma]
  | succ fuel ih =>
    intro a st m hle
    by_cases hma : M < a
    · simp [generateSegmentWithRetryGo, hma]
    · cases hfa : f a with
      | completed j =>
        simp [generateSegmentWithRetryGo, hma, hfa, withErr, updateSegmentStatus]
      | failedResult e =>
        by_cases ham : a < M
        · have hrec := ih (a + 1)
            { st with
              video := updateSegmentStatus st.video n (fun s =>
                { s with status := .generating, retryCount := a - 1, startedAt := true })
              events := st.events ++ [Event.providerStart n a]
              sleeps := st.sleeps ++ [5000 * a] } m (by omega)
          rw [generateSegmentWithRetryGo.eq_def, generateSegmentWithRetryGo.eq_def]
          simp only [dif_neg hma, hfa, dif_pos ham]
          exact hrec
        · simp [generateSegmentWithRetryGo, hma, hfa, ham, withErr,
            updateSegmentStatus]
      | thrown e =>
        by_cases hem : a = M
        · subst hem
          simp [generateSegmentWithRetryGo, hma, hfa, withErr, updateSegmentStatus]
        · have hrec := ih (a + 1)
            { st with
              video := updateSegmentStatus st.video n (fun s =>
                { s with status := .generating, retryCount := a - 1, startedAt := true })
              events := st.events ++ [Event.providerStart n a]
              sleeps := st.sleeps ++ [5000 * a] } m (by omega)
          rw [generateSegmentWithRetryGo.eq_def, generateSegmentWithRetryGo.eq_def]
          simp only [dif_neg hma, hfa, dif_neg hem]
          exact hrec

theorem segRetry_errComm (M : Nat) (f : Nat → AttemptResult) (n : Nat)
    (p : String) (st : PState) (m : Option String) :
    generateSegmentWithRetryGo M f n p 1 (withErr st m) =
      ((generateSegmentWithRetryGo M f n p 1 st).1,
       withErr (generateSegmentWithRetryGo M f n p 1 st).2 m) :=
  segRetryGo_errComm_fuel M f n p (M + 1 - 1) 1 st m (by omega)

theorem genStep_errComm (env : Env) (mr : Nat) (uid vid : String)
    (scenes : List Scene) (i : Nat) (st : PState) (m : Option String)
    (hi : i < scenes.length) :
    genStep env mr uid vid scenes i (withErr st m) =
      ((genStep env mr uid vid scenes i st).1,
       withErr (genStep env mr uid vid scenes i st).2 m) := by
  obtain ⟨sc, hsc⟩ : ∃ sc, scenes.get? i = some sc := by
    cases h' : scenes.get? i with
    | none =>
      have := List.get?_eq_none.mp h'
      omega
    | some sc => exact ⟨sc, rfl⟩
  simp only [genStep, hsc, withErr_video, withErr_events, withErr_sleeps,
    generateSegmentWithRetry]
  rw [updateProgress_errComm st.video m VStatus.generating
    (segmentProgress i scenes.length)
    (some ("Generating segment " ++ toString (i + 1) ++ " of " ++
      toString scenes.length))
    (some (i + 1))]
  rw [withErr_fold]
  rw [segRetry_errComm]
  rcases hq : generateSegmentWithRetryGo mr (env.attempts (i + 1)) (i + 1)
    (getSegmentPath uid vid (i + 1)) 1
    { video :=
        (updateProgress st.video VStatus.generating (segmentProgress i scenes.length)
          (some ("Generating segment " ++ toString (i + 1) ++ " of " ++
            toString scenes.length))
          (some (i + 1)))
      events := st.events, sleeps := st.sleeps } with ⟨res, stR⟩
  by_cases hres : res.status = SegStatus.failed
  · simp [hres]
  · by_cases hlast : i < scenes.length - 1
    · cases hfp : env.extractLastFrame (i + 1) with
      | error e => simp [hres, hlast, hfp]
      | ok fp => simp [hres, hlast, hfp, withErr, updateSegmentStatus]
    · simp [hres, hlast]

theorem genLoop_errComm_fuel (env : Env) (mr : Nat) (uid vid : String)
    (scenes : List Scene) :
    ∀ fuel i st m, scenes.length - i ≤ fuel →
      genLoop env mr uid vid scenes i (withErr st m) =
        ((genLoop env mr uid vid scenes i st).1,
         withErr (genLoop env mr uid vid scenes i st).2 m) := by
  intro fuel
  induction fuel with
  | zero =>
    intro i st m hle
    have hi : ¬ i < scenes.length := by omega
    rw [genLoop.eq_def, genLoop.eq_def]
    simp only [dif_neg hi]
  | succ fuel ih =>
    intro i st m hle
    by_cases hi : i < scenes.length
    · rw [genLoop.eq_def, genLoop.eq_def]
      simp only [dif_pos hi]
      rw [genStep_errComm env mr uid vid scenes i st m hi]
      rw [bindE_errComm _ m _ _ (fun st' => ih (i + 1) st' m (by omega))]
    · rw [genLoop.eq_def, genLoop.eq_def]
      simp only [dif_neg hi]

theorem continueFromSegment_errComm (env : Env) (mr : Nat) (uid vid : String)
    (scenes : List Scene) (i : Nat) (st : PState) (m : Option String) :
    continueFromSegment env mr uid vid scenes i (withErr st m) =
      ((continueFromSegment env mr uid vid scenes i st).1,
       withErr (continueFromSegment env mr uid vid scenes i st).2 m) := by
  simp only [continueFromSegment]
  rw [genLoop_errComm_fuel env mr uid vid scenes (scenes.length - i) i st m (by omega)]
  rw [bindE_errComm _ m _ _ (fun st' => postGeneration_errComm env scenes st' m)]

theorem postGeneration_statusIrrel (env : Env) (scenes : List Scene)
    (st : PState) (s : VStatus) :
    postGeneration env scenes { st with video := { st.video with status := s } } =
      postGeneration env scenes st := rfl

theorem genStep_statusIrrel (env : Env) (mr : Nat) (uid vid : String)
    (scenes : List Scene) (i : Nat) (st : PState) (s : VStatus)
    (hi : i < scenes.length) :
    genStep env mr uid vid scenes i { st with video := { st.video with status := s } } =
      genStep env mr uid vid scenes i st := by
  obtain ⟨sc, hsc⟩ : ∃ sc, scenes.get? i = some sc := by
    cases h' : scenes.get? i with
    | none =>
      have := List.get?_eq_none.mp h'
      omega
    | some sc => exact ⟨sc, rfl⟩
  simp only [genStep, hsc]
  rw [updateProgress_statusIrrel]

theorem genLoop_statusIrrel (env : Env) (mr : Nat) (uid vid : String)
    (scenes : List Scene) (i : Nat) (st : PState) (s : VStatus)
    (hi : i < scenes.length) :
    genLoop env mr uid vid scenes i
        { st with video := { st.video with status := s } } =
      genLoop env mr uid vid scenes i st := by
  rw [genLoop.eq_def, genLoop.eq_def]
  simp only [dif_pos hi]
  rw [genStep_statusIrrel env mr uid vid scenes i st s hi]

theorem continueFromSegment_statusIrrel (env : Env) (mr : Nat)
    (uid vid : String) (scenes : List Scene) (i : Nat) (st : PState)
    (s : VStatus) :
    continueFromSegment env mr uid vid scenes i
        { st with video := { st.video with status := s } } =
      continueFromSegment env mr uid vid scenes i st := by
  by_cases hi : i < scenes.length
  · simp only [continueFromSegment]
    rw [genLoop_statusIrrel env mr uid vid scenes i st s hi]
  · simp only [continueFromSegment]
    rw [genLoop.eq_def, genLoop.eq_def]
    simp only [dif_neg hi, bindE]
    exact postGeneration_statusIrrel env scenes st s

/-- C3 amended: a cancellation request immediately marks an active run
`failed` with errorMessage `Processing cancelled by user` (not
`cancelled`) and releases the lock — but the orchestrator itself performs
no cancellation check between segments or phases: its continuation from
any boundary behaves exactly as if no cancellation had happened, merely
carrying the stored message along (and overwriting the `failed` status
with its own progress writes). -/
theorem c3_cancel_marks_failed_but_run_continues (env : Env) (mr : Nat)
    (uid vid : String) (scenes : List Scene) (i : Nat) (st : PState)
    (lockDb : Option LockRow)
    (hactive : [VStatus.completed, VStatus.failed,
      VStatus.pending].contains st.video.status = false) :
    (cancelProcessing st.video lockDb).1 = true ∧
    (cancelProcessing st.video lockDb).2.1 =
      { st.video with status := VStatus.failed, errorMessage := some "Processing cancelled by user" } ∧
    (cancelProcessing st.video lockDb).2.2 = (releaseLock lockDb).2 ∧
    (continueFromSegment env mr uid vid scenes i
        { st with video := (cancelProcessing st.video lockDb).2.1 }).1 =
      (continueFromSegment env mr uid vid scenes i st).1 ∧
    (continueFromSegment env mr uid vid scenes i
        { st with video := (cancelProcessing st.video lockDb).2.1 }).2 =
      withErr (continueFromSegment env mr uid vid scenes i st).2
        (some "Processing cancelled by user") := by
  have hcancel : cancelProcessing st.video lockDb =
      (true,
       { st.video with status := VStatus.failed, errorMessage := some "Processing cancelled by user" },
       (releaseLock lockDb).2) := by
    have h' : ¬ st.video.status = VStatus.completed ∧
        ¬ st.video.status = VStatus.failed ∧
        ¬ st.video.status = VStatus.pending := by
      simpa using hactive
    simp [cancelProcessing, h'.1, h'.2.1, h'.2.2]
  have hcont : continueFromSegment env mr uid vid scenes i
      { st with video := { st.video with status := VStatus.failed, errorMessage := some "Processing cancelled by user" } } =
      ((continueFromSegment env mr uid vid scenes i st).1,
       withErr (continueFromSegment env mr uid vid scenes i st).2
         (some "Processing cancelled by user")) := by
    have h1 := continueFromSegment_errComm env mr uid vid scenes i
      { st with video := { st.video with status := VStatus.failed } }
      (some "Processing cancelled by user")
    rw [continueFromSegment_statusIrrel env mr uid vid scenes i st
      VStatus.failed] at h1
    exact h1
  have hc1 : (cancelProcessing st.video lockDb).1 = true := by rw [hcancel]
  have hc21 : (cancelProcessing st.video lockDb).2.1 =
      { st.video with status := VStatus.failed, errorMessage := some "Processing cancelled by user" } := by
    rw [hcancel]
  have hc22 : (cancelProcessing st.video lockDb).2.2 = (releaseLock lockDb).2 := by
    rw [hcancel]
  refine ⟨hc1, hc21, hc22, ?_, ?_⟩
  · rw [hc21, hcont]
  · rw [hc21, hcont]

theorem c3_cancel_marks_failed_but_run_continues_witness :
    [VStatus.completed, VStatus.failed,
      VStatus.pending].contains c3activeSt.video.status = false ∧
    ((cancelProcessing c3activeSt.video none).1 = true ∧
     (cancelProcessing c3activeSt.video none).2.1 =
       { c3activeSt.video with status := VStatus.failed, errorMessage := some "Processing cancelled by user" } ∧
     (cancelProcessing c3activeSt.video none).2.2 = (releaseLock none).2 ∧
     (continueFromSegment {} 3 "u" "v" [] 0
         { c3activeSt with video := (cancelProcessing c3activeSt.video none).2.1 }).1 =
       (continueFromSegment {} 3 "u" "v" [] 0 c3activeSt).1 ∧
     (continueFromSegment {} 3 "u" "v" [] 0
         { c3activeSt with video := (cancelProcessing c3activeSt.video none).2.1 }).2 =
       withErr (continueFromSegment {} 3 "u" "v" [] 0 c3activeSt).2
         (some "Processing cancelled by user")) :=
  ⟨by decide,
   c3_cancel_marks_failed_but_run_continues {} 3 "u" "v" [] 0 c3activeSt none
     (by decide)⟩

/-- C3 as stated is false: the cancel request stores
`Processing cancelled by user` (not `cancelled`), and the orchestrator does
not stop at the next boundary — after a cancellation between segment 1 and
segment 2 the run still generates segment 2, stitches, and finishes
`completed`. -/
theorem c3_counterexample :
    c3step.1 = .ok () ∧
    c3mid.video.status = .generating ∧
    runPhases c3env 3 c3st0 =
      continueFromSegment c3env 3 "u3" "v3" c3scenes 1 c3mid ∧
    c3cancelled.1 = true ∧
    c3cancelled.2.1.errorMessage = some "Processing cancelled by user" ∧
    some "Processing cancelled by user" ≠ some "cancelled" ∧
    c3resumed.1 = .ok () ∧
    c3resumed.2.video.status = .completed ∧
    Event.stitchCalled ∈ c3resumed.2.events ∧
    Event.providerStart 2 1 ∈ c3resumed.2.events := by
  refine ⟨?_, ?_, ?_, ?_, ?_, by decide, ?_, ?_, ?_, ?_⟩ <;>
    simp [c3step, c3mid, c3stStart, c3st0, c3video, c3scenes, c3env, c3lock,
      c3cancelled, c3resumed, runPhases, scenesUsed, afterPhase1,
      continueFromSegment, genLoop, genStep, bindE, generateSegmentWithRetry,
      generateSegmentWithRetryGo, updateSegmentStatus, updateFirstSegment,
      segmentProgress, jsRound, getSegmentPath, pad3, postGeneration,
      stitchSegments, generateAudio, hasUserNarration, sceneHasNarration,
      strTrim, isWS, narrationTextOrEmpty, userNarrationScript, audioPhaseFrom,
      mergePhaseFrom, transcodePhaseFrom, mergeAudioVideo, transcodeResolutions,
      cancelProcessing, releaseLock, updateProgress]

end VideoForge
